import Mathlib

/-
  Verification of the Medical MCP server (src/medical_mcp.py).

  Shallow embedding.  Python runtime values flowing out of the upstream
  HTTP APIs are modelled by the inductive type JVal (JSON-like values).
  Python exceptions are modelled by the exception monad Py := Except String;
  every dictionary access, list index, slice, len() and join() that can
  raise in Python is a Py computation.  Each MCP tool takes, besides its
  declared arguments, the outcome of its upstream HTTP call as an explicit
  parameter (Except.error = network/JSON-decode failure, Except.ok = the
  decoded body, of arbitrary shape so malformed data is covered), and is a
  pyTry (the try/except at the tool boundary) around a core computation.

  Modelling notes (divergences that no claim depends on):
  * JSON numbers are carried as Int (no claim depends on float semantics;
    only truthiness of 0 and the presence of fields matter).
  * str() of a list renders elements with str, not repr (no claim inspects
    the rendered text of a malformed non-string field).
  * str() of a dict is rendered as a fixed placeholder.
  * Python's \d and whitespace classes are modelled with Char.isDigit and
    Char.isWhitespace (ASCII); all claim-relevant inputs are ASCII.
  * Iterating / len() / slicing a non-list upstream value is modelled as a
    raised error; in Python some of these succeed on str/dict and raise a
    step later inside the loop body - in both cases the tool boundary
    converts the failure to an error string, which is all any claim uses.
-/

/-- JSON-like Python runtime value. -/
inductive JVal where
  | null : JVal
  | bool : Bool → JVal
  | num : Int → JVal
  | str : String → JVal
  | arr : List JVal → JVal
  | obj : List (String × JVal) → JVal

/-- The Python exception monad: an uncaught exception is Except.error. -/
abbrev Py (α : Type) : Type := Except String α

/-- Python truthiness (bool(v)). -/
def JVal.pyTruthy : JVal → Bool
  | .null => false
  | .bool b => b
  | .num n => n != 0
  | .str s => !s.isEmpty
  | .arr xs => !xs.isEmpty
  | .obj kvs => !kvs.isEmpty

/-- Python d[k] on a dict: KeyError when absent, TypeError on a non-dict. -/
def JVal.getItem : JVal → String → Py JVal
  | .obj kvs, k =>
    match kvs.lookup k with
    | some v => Except.ok v
    | none => Except.error ("KeyError: " ++ k)
  | _, k => Except.error ("TypeError: value is not subscriptable by key " ++ k)

/-- Python d.get(k, dflt): the default when absent, error on a non-dict. -/
def JVal.dictGet : JVal → String → JVal → Py JVal
  | .obj kvs, k, dflt => Except.ok ((kvs.lookup k).getD dflt)
  | _, _, _ => Except.error "AttributeError: no method get"

/-- Python v[i] for a nonnegative index: IndexError out of range; a string
indexes to its 1-character substring as in Python. -/
def JVal.pyIndex : JVal → Nat → Py JVal
  | .arr xs, i =>
    match xs.get? i with
    | some v => Except.ok v
    | none => Except.error "IndexError: list index out of range"
  | .str s, i =>
    match s.data.get? i with
    | some c => Except.ok (.str (String.mk [ c ]))
    | none => Except.error "IndexError: string index out of range"
  | _, _ => Except.error "TypeError: value is not indexable"

/-- Python v[:n] on a list or string. -/
def JVal.pySliceTake : JVal → Nat → Py JVal
  | .arr xs, n => Except.ok (.arr (xs.take n))
  | .str s, n => Except.ok (.str (String.mk (s.data.take n)))
  | _, _ => Except.error "TypeError: value is not sliceable"

/-- Python len(v). -/
def JVal.pyLen : JVal → Py Nat
  | .arr xs => Except.ok xs.length
  | .str s => Except.ok s.length
  | .obj kvs => Except.ok kvs.length
  | _ => Except.error "TypeError: value has no len"

/-- Iterating a Python value: a list yields its elements, a string its
characters (as 1-character strings), a dict its keys. -/
def JVal.asIter : JVal → Py (List JVal)
  | .arr xs => Except.ok xs
  | .str s => Except.ok (s.data.map (fun c => JVal.str (String.mk [ c ])))
  | .obj kvs => Except.ok (kvs.map (fun p => JVal.str p.1))
  | _ => Except.error "TypeError: value is not iterable"

/-- Are all elements strings?  (sep.join requires it.) -/
def allStrs : List JVal → Option (List String)
  | [] => some []
  | .str s :: t => (allStrs t).map (fun l => s :: l)
  | _ => none

/-- Python sep.join(v): TypeError unless every element is a string. -/
def pyJoin (sep : String) : JVal → Py String
  | .arr xs =>
    match allStrs xs with
    | some l => Except.ok (String.intercalate sep l)
    | none => Except.error "TypeError: sequence item is not a string"
  | .str s => Except.ok (String.intercalate sep (s.data.map (fun c => String.mk [ c ])))
  | _ => Except.error "TypeError: can only join an iterable"

/-- Decimal digits of a natural number, most significant first.  Fuel-based
so that the definition reduces by rfl; fuel n+1 always suffices. -/
def natDigitsAux : Nat → Nat → List Char
  | 0, _ => []
  | fuel + 1, n =>
    if n < 10 then [ Nat.digitChar n ]
    else natDigitsAux fuel (n / 10) ++ [ Nat.digitChar (n % 10) ]

/-- Python str(n) for a natural number. -/
def natStr (n : Nat) : String := String.mk (natDigitsAux (n + 1) n)

/-- Python str(n) for an integer. -/
def intStr (n : Int) : String :=
  if n < 0 then "-" ++ natStr n.natAbs else natStr n.natAbs

mutual
/-- Python str(v) applied to a runtime value (see modelling notes). -/
def JVal.pyStr : JVal → String
  | .null => "None"
  | .bool true => "True"
  | .bool false => "False"
  | .num n => intStr n
  | .str s => s
  | .arr xs => "[" ++ pyStrList xs ++ "]"
  | .obj _ => "<dict>"

def pyStrList : List JVal → String
  | [] => ""
  | [ v ] => JVal.pyStr v
  | v :: w :: t => JVal.pyStr v ++ ", " ++ pyStrList (w :: t)
end

/-- Python s.strip() (leading and trailing whitespace removed). -/
def pyStrip (s : String) : String :=
  String.mk (((s.data.dropWhile Char.isWhitespace).reverse.dropWhile Char.isWhitespace).reverse)

/-- The try/except at every tool boundary: an exception escaping the body is
converted by the handler into an ordinary result string. -/
def pyTry (body : Py String) (handler : String → String) : Py String :=
  match body with
  | .ok s => Except.ok s
  | .error e => Except.ok (handler e)

/-- Truthiness of an Optional[str] argument (None and "" are falsy). -/
def optTruthy : Option String → Bool
  | none => false
  | some s => !s.isEmpty

/-- enumerate(xs, start=k). -/
def enumIdx (k : Nat) : List α → List (Nat × α)
  | [] => []
  | x :: t => (k, x) :: enumIdx (k + 1) t

/-- Effectful map in the Py monad (a Python for-loop accumulating results;
the first raised exception aborts the whole computation). -/
def mapE (f : α → Py β) : List α → Py (List β)
  | [] => Except.ok []
  | x :: t => do
    let y ← f x
    let ys ← mapE f t
    Except.ok (y :: ys)

/-
  Regular-expression searches used by the source, implemented directly for
  the concrete patterns involved (leftmost-match semantics of re.search).
-/

/-- re.search(r"(\d{4})", s): the group of the leftmost match, i.e. the
first four consecutive digit characters (a window, not a maximal run). -/
def searchFourL : List Char → Option String
  | a :: b :: c :: d :: rest =>
    if a.isDigit && b.isDigit && c.isDigit && d.isDigit then
      some (String.mk [ a, b, c, d ])
    else searchFourL (b :: c :: d :: rest)
  | _ => none

/-- re.search with pattern sep ++ " ([^sep]+)$" (for sep = '-' this is
r"- ([^-]+)$", for sep = ',' it is r", ([^,]+)$"): at a given start the
pattern matches iff the text there is sep, a space, and a nonempty
remainder running to the end of the string that contains no sep. -/
def searchSepEnd (sep : Char) : List Char → Option (List Char)
  | [] => none
  | c :: cs =>
    if c = sep ∧ cs.take 1 = [ ' ' ] ∧ cs.drop 1 ≠ [] ∧ (cs.drop 1).contains sep = false then
      some (cs.drop 1)
    else searchSepEnd sep cs

/-- re.search(r"in ([^,]+)", s): the group of the leftmost match; the
literal "in " may occur anywhere, even inside a word, and the group is the
maximal nonempty comma-free run following it. -/
def searchInL : List Char → Option (List Char)
  | [] => none
  | c :: cs =>
    if c = 'i' ∧ cs.take 2 = [ 'n', ' ' ] ∧ (cs.drop 2).takeWhile (fun x => x ≠ ',') ≠ [] then
      some ((cs.drop 2).takeWhile (fun x => x ≠ ','))
    else searchInL cs

/-- Maximal runs of consecutive digits of a string, in order (fuel-based so
the definition reduces by rfl; fuel = length always suffices). -/
def digitRunsAux : Nat → List Char → List (List Char)
  | 0, _ => []
  | _, [] => []
  | fuel + 1, c :: cs =>
    if c.isDigit then
      (c :: cs.takeWhile Char.isDigit) :: digitRunsAux fuel (cs.dropWhile Char.isDigit)
    else digitRunsAux fuel cs

def digitRuns (s : List Char) : List (List Char) := digitRunsAux s.length s

/-- Drop a literal prefix, or fail. -/
def dropLit : List Char → List Char → Option (List Char)
  | [], s => some s
  | _, [] => none
  | l :: ls, c :: cs => if c = l then dropLit ls cs else none

/-- One attempt of the pattern openLit ++ "[^>]*>" ++ "(good+)" ++ closeLit
at the head of s (the shape of both re.findall patterns in the literature
phase-2 parser); on success returns the captured group and the remainder
after the whole match. -/
def tryMatchElem (openLit closeLit : List Char) (good : Char → Bool) (s : List Char) :
    Option (List Char × List Char) :=
  match dropLit openLit s with
  | none => none
  | some r1 =>
    match r1.dropWhile (fun c => c ≠ '>') with
    | [] => none
    | _ :: r3 =>
      let cap := r3.takeWhile good
      if cap = [] then none
      else
        match dropLit closeLit (r3.dropWhile good) with
        | none => none
        | some r5 => some (cap, r5)

/-- re.findall for the above pattern shape: leftmost, non-overlapping
matches; fuel-based (each step consumes at least one character, so fuel =
length suffices and the scan is exactly Python's). -/
def findallElems (openLit closeLit : List Char) (good : Char → Bool) :
    Nat → List Char → List String
  | 0, _ => []
  | _, [] => []
  | fuel + 1, c :: cs =>
    match tryMatchElem openLit closeLit good (c :: cs) with
    | some (cap, rest) => String.mk cap :: findallElems openLit closeLit good fuel rest
    | none => findallElems openLit closeLit good fuel cs

def pyFindall (openLit closeLit : List Char) (good : Char → Bool) (s : String) : List String :=
  findallElems openLit closeLit good s.data.length s.data

/-
  The Google Scholar scraper (search_google_scholar, lines 148-201).

  The parsed HTML page is modelled as the list of its elements in document
  order; an element carries its class tokens and attribute names (what the
  block-level CSS selectors ".gs_r, .gs_ri, [data-rp]" inspect), and the
  outcome of the per-field select_one fallback chains as Option-valued
  oracles: titleEl is the first element matched by the title selector chain
  (with its stripped text and optional href), and authorsText/abstractText/
  citationsText are the stripped texts of the first elements matched by the
  respective chains, none when every selector in the chain failed.
-/

structure TitleEl where
  text : String
  href : Option String

structure ScholarEl where
  classes : List String
  attrs : List String
  titleEl : Option TitleEl
  authorsText : Option String
  abstractText : Option String
  citationsText : Option String

/-- A simple CSS selector: a class selector ".c" or an attribute-presence
selector "[a]". -/
inductive CssSel where
  | classSel : String → CssSel
  | attrSel : String → CssSel

def matchesSel (e : ScholarEl) : CssSel → Bool
  | .classSel c => e.classes.contains c
  | .attrSel a => e.attrs.contains a

/-- The selector group of soup.select(".gs_r, .gs_ri, [data-rp]"). -/
def blockSelGroup : List CssSel :=
  [ CssSel.classSel "gs_r", CssSel.classSel "gs_ri", CssSel.attrSel "data-rp" ]

/-- soup.select with a comma-separated selector group returns every element
matching any selector of the group, in document order. -/
def selectBlocks (doc : List ScholarEl) : List ScholarEl :=
  doc.filter (fun e => blockSelGroup.any (fun s => matchesSel e s))

/-- The article record built by the scraper. -/
structure GoogleScholarArticle where
  title : String
  authors : String
  abstract : String
  journal : String
  year : String
  citations : String
  url : Option String

/-- Lines 180-183: year derivation.  All three searches are evaluated and
the first one that matched wins (authors, then title, then abstract). -/
def extractYear (authors title abstract : String) : String :=
  match searchFourL authors.data with
  | some y => y
  | none =>
    match searchFourL title.data with
    | some y => y
    | none =>
      match searchFourL abstract.data with
      | some y => y
      | none => ""

/-- Lines 185-188: journal derivation from the author/venue text: the first
match among r"- ([^-]+)$", r", ([^,]+)$", r"in ([^,]+)", stripped. -/
def extractJournal (authors : String) : String :=
  match searchSepEnd '-' authors.data with
  | some w => pyStrip (String.mk w)
  | none =>
    match searchSepEnd ',' authors.data with
    | some w => pyStrip (String.mk w)
    | none =>
      match searchInL authors.data with
      | some w => pyStrip (String.mk w)
      | none => ""

/-- Extracted title text: the matched element's stripped text, else "". -/
def blockTitleText (el : ScholarEl) : String :=
  match el.titleEl with
  | some t => t.text
  | none => ""

/-- Lines 167-199: processing of one candidate block.  The candidate is
kept only if its title is truthy and longer than 5 characters. -/
def processBlock (el : ScholarEl) : Option GoogleScholarArticle :=
  let title := blockTitleText el
  let url : Option String :=
    match el.titleEl with
    | some t => t.href
    | none => some ""
  let authors := (el.authorsText).getD ""
  let abstract := (el.abstractText).getD ""
  let citations := (el.citationsText).getD ""
  if title ≠ "" ∧ 5 < title.length then
    some { title := title, authors := authors, abstract := abstract,
           journal := extractJournal authors, year := extractYear authors title abstract,
           citations := citations, url := url }
  else none

/-- The surviving candidates in document order. -/
def scholarArticles (doc : List ScholarEl) : List GoogleScholarArticle :=
  (selectBlocks doc).filterMap processBlock

/-- search_google_scholar: scrape the fetched page (the random delay and
the request itself are outside the extraction logic; resp is the outcome
of the GET, already parsed into the element list - parsing never raises). -/
def search_google_scholar (resp : Py (List ScholarEl)) : Py (List GoogleScholarArticle) := do
  let doc ← resp
  Except.ok (scholarArticles doc)

/-
  The PubMed literature extractor (search_pubmed_articles, lines 203-236).
  resp1 is the outcome of the phase-1 esearch GET (decoded JSON body),
  resp2 the outcome of the phase-2 efetch GET (raw XML text).  The second
  component of the result records whether the phase-2 request was issued.
-/

structure PubMedArticle where
  pmid : String
  title : String
  abstract : String
  authors : List String
  journal : String
  publication_date : String

def mkPubMedArticle (pmid title : String) : PubMedArticle :=
  { pmid := pmid, title := title,
    abstract := "Abstract not available in this format",
    authors := [],
    journal := "Journal information not available",
    publication_date := "Date not available" }

def pmidOpen : List Char := [ '<', 'P', 'M', 'I', 'D' ]
def pmidClose : List Char := [ '<', '/', 'P', 'M', 'I', 'D', '>' ]
def titleOpen : List Char :=
  [ '<', 'A', 'r', 't', 'i', 'c', 'l', 'e', 'T', 'i', 't', 'l', 'e' ]
def titleClose : List Char :=
  [ '<', '/', 'A', 'r', 't', 'i', 'c', 'l', 'e', 'T', 'i', 't', 'l', 'e', '>' ]

/-- Lines 221-236: re.findall over the XML for PMIDs and titles, zipped. -/
def parsePubmedXml (xml : String) : List PubMedArticle :=
  ((pyFindall pmidOpen pmidClose Char.isDigit xml).zip
    (pyFindall titleOpen titleClose (fun c => c ≠ '<') xml)).map
    (fun p => mkPubMedArticle p.1 p.2)

/-- Line 210: search_res.json().get("esearchresult", {}).get("idlist", []). -/
def pubmedIdlist (j : JVal) : Py JVal := do
  let es ← j.dictGet "esearchresult" (.obj [])
  es.dictGet "idlist" (.arr [])

/-- search_pubmed_articles.  maxResults is only sent as the retmax request
parameter (line 207); it is not applied locally.  Phase 2 is reached only
when the id list is truthy; building the phase-2 request joins the ids
first (line 217), which raises before the request if an id is not a
string. -/
def search_pubmed_articles (maxResults : Nat) (resp1 : Py JVal) (resp2 : Py String) :
    Py (List PubMedArticle) × Bool :=
  match resp1 with
  | .error e => (Except.error e, false)
  | .ok j =>
    match pubmedIdlist j with
    | .error e => (Except.error e, false)
    | .ok idl =>
      if idl.pyTruthy then
        match pyJoin "," idl with
        | .error e => (Except.error e, false)
        | .ok _ =>
          match resp2 with
          | .error e => (Except.error e, true)
          | .ok xml => (Except.ok (parsePubmedXml xml), true)
      else (Except.ok [], false)

/-
  The JSON-backed extractors (lines 103-142).  Each takes the outcome of
  its GET; the query/limit arguments only shape the request parameters.
-/

/-- Lines 103-110: the FDA body's "results" field (default []); the limit
is only a request parameter - the returned records are not truncated. -/
def search_drugs (query : String) (limit : Nat) (resp : Py JVal) : Py JVal := do
  let j ← resp
  j.dictGet "results" (.arr [])

/-- Lines 112-120: results[0] if results else None. -/
def get_drug_by_ndc (resp : Py JVal) : Py JVal := do
  let j ← resp
  let rs ← j.dictGet "results" (.arr [])
  if rs.pyTruthy then rs.pyIndex 0 else Except.ok JVal.null

/-- Lines 122-133: the WHO body's "value" field (default []). -/
def get_health_indicators (resp : Py JVal) : Py JVal := do
  let j ← resp
  j.dictGet "value" (.arr [])

/-- Lines 135-142: res.json().get("drugGroup", {}).get("conceptGroup",
[{}])[0].get("concept", []). -/
def search_rxnorm_drugs (resp : Py JVal) : Py JVal := do
  let j ← resp
  let dg ← j.dictGet "drugGroup" (.obj [])
  let cg ← dg.dictGet "conceptGroup" (.arr [ .obj [] ])
  let c0 ← cg.pyIndex 0
  c0.dictGet "concept" (.arr [])

/-
  Formatters and tools.  Each tool is pyTry around its try-block body; the
  body builds its result string by successive +=, modelled as the join of
  the appended segments.
-/

/-- drug['openfda'].get(key, [dflt])[0]. -/
def drugName (drug : JVal) (key dflt : String) : Py JVal := do
  let o ← drug.getItem "openfda"
  let v ← o.dictGet key (.arr [ .str dflt ])
  v.pyIndex 0

/-- Python `d.get(k) and d[k]` (the guard used for optional list fields):
truthiness of the .get, then of the getitem. -/
def fieldGuard (drug : JVal) (key : String) : Py Bool := do
  let p ← drug.dictGet key .null
  if p.pyTruthy then do
    let p2 ← drug.getItem key
    Except.ok p2.pyTruthy
  else Except.ok false

/-- Lines 264-274: the segments appended for one drug record in
search_drugs_tool. -/
def formatDrugSegs (idx : Nat) (drug : JVal) : Py (List String) := do
  let brand ← drugName drug "brand_name" "Unknown Brand"
  let gn ← drugName drug "generic_name" "Not specified"
  let mn ← drugName drug "manufacturer_name" "Not specified"
  let rt ← drugName drug "route" "Not specified"
  let df ← drugName drug "dosage_form" "Not specified"
  let pcond ← fieldGuard drug "purpose"
  let psegs ← if pcond then do
      let p2 ← drug.getItem "purpose"
      let p0 ← p2.pyIndex 0
      let psl ← p0.pySliceTake 200
      let plen ← p0.pyLen
      Except.ok [ "   Purpose: " ++ psl.pyStr ++ (if 200 < plen then "..." else "") ++ "\n" ]
    else Except.ok ([] : List String)
  let et ← drug.getItem "effective_time"
  Except.ok ([ natStr idx ++ ". **" ++ brand.pyStr ++ "**\n",
      "   Generic Name: " ++ gn.pyStr ++ "\n",
      "   Manufacturer: " ++ mn.pyStr ++ "\n",
      "   Route: " ++ rt.pyStr ++ "\n",
      "   Dosage Form: " ++ df.pyStr ++ "\n" ] ++ psegs ++
    [ "   Last Updated: " ++ et.pyStr ++ "\n\n" ])

/-- The formatted per-record strings of the drug-search loop (the whole
record list is formatted: no truncation to the limit). -/
def drugRecordStrings (drugs : List JVal) : Py (List String) :=
  mapE (fun p => Except.map String.join (formatDrugSegs p.1 p.2)) (enumIdx 1 drugs)

/-- Lines 250-278: search_drugs_tool. -/
def search_drugs_tool (query : String) (limit : Nat) (resp : Py JVal) : Py String :=
  pyTry (do
      let drugs ← search_drugs query limit resp
      if drugs.pyTruthy = false then
        Except.ok ("No drugs found matching '" ++ query ++ "'. Try a different search term.")
      else do
        let n ← drugs.pyLen
        let ds ← drugs.asIter
        let recs ← drugRecordStrings ds
        Except.ok ("**Drug Search Results for '" ++ query ++ "'**\n\n"
          ++ "Found " ++ natStr n ++ " drug(s)\n\n" ++ String.join recs))
    (fun e => "Error searching drugs: " ++ e)

/-- Lines 306-310 and 312-322: the optional numbered blocks of
get_drug_details_tool (purpose untruncated; warnings and interactions
truncated to 300 characters). -/
def detailListSegs (drug : JVal) (key header : String) (truncAt : Option Nat) :
    Py (List String) := do
  let cond ← fieldGuard drug key
  if cond then do
    let v ← drug.getItem key
    let items ← v.asIter
    let lines ← mapE (fun p => do
        match truncAt with
        | none => Except.ok (natStr p.1 ++ ". " ++ (p.2 : JVal).pyStr ++ "\n")
        | some k => do
          let sl ← (p.2 : JVal).pySliceTake k
          let ln ← (p.2 : JVal).pyLen
          Except.ok (natStr p.1 ++ ". " ++ sl.pyStr ++ (if k < ln then "..." else "") ++ "\n"))
      (enumIdx 1 items)
    Except.ok ([ header ] ++ lines ++ [ "\n" ])
  else Except.ok []

/-- Lines 287-326: get_drug_details_tool. -/
def get_drug_details_tool (ndc : String) (resp : Py JVal) : Py String :=
  pyTry (do
      let drug ← get_drug_by_ndc resp
      if drug.pyTruthy = false then
        Except.ok ("No drug found with NDC: " ++ ndc)
      else do
        let brand ← drugName drug "brand_name" "Not specified"
        let gn ← drugName drug "generic_name" "Not specified"
        let mn ← drugName drug "manufacturer_name" "Not specified"
        let rt ← drugName drug "route" "Not specified"
        let df ← drugName drug "dosage_form" "Not specified"
        let et ← drug.getItem "effective_time"
        let psegs ← detailListSegs drug "purpose" "**Purpose/Uses:**\n" none
        let wsegs ← detailListSegs drug "warnings" "**Warnings:**\n" (some 300)
        let isegs ← detailListSegs drug "drug_interactions" "**Drug Interactions:**\n" (some 300)
        Except.ok (String.join ([ "**Drug Details for NDC: " ++ ndc ++ "**\n\n",
            "**Basic Information:**\n",
            "- Brand Name: " ++ brand.pyStr ++ "\n",
            "- Generic Name: " ++ gn.pyStr ++ "\n",
            "- Manufacturer: " ++ mn.pyStr ++ "\n",
            "- Route: " ++ rt.pyStr ++ "\n",
            "- Dosage Form: " ++ df.pyStr ++ "\n",
            "- Last Updated: " ++ et.pyStr ++ "\n\n" ] ++ psegs ++ wsegs ++ isegs)))
    (fun e => "Error fetching drug details: " ++ e)

/-- Lines 353-358: the segments appended for one WHO indicator record. -/
def formatIndicatorSegs (idx : Nat) (ind : JVal) : Py (List String) := do
  let sd ← ind.getItem "SpatialDim"
  let td ← ind.getItem "TimeDim"
  let v ← ind.getItem "Value"
  let cm ← ind.getItem "Comments"
  let nv ← ind.getItem "NumericValue"
  let low ← ind.dictGet "Low" .null
  let high ← ind.dictGet "High" .null
  let rsegs ← if low.pyTruthy && high.pyTruthy then do
      let l ← ind.getItem "Low"
      let h ← ind.getItem "High"
      Except.ok [ "   Range: " ++ l.pyStr ++ " - " ++ h.pyStr ++ "\n" ]
    else Except.ok ([] : List String)
  let dt ← ind.getItem "Date"
  Except.ok ([ natStr idx ++ ". **" ++ sd.pyStr ++ "** (" ++ td.pyStr ++ ")\n",
      "   Value: " ++ v.pyStr ++ " " ++ (if cm.pyTruthy then cm.pyStr else "") ++ "\n",
      "   Numeric Value: " ++ nv.pyStr ++ "\n" ] ++ rsegs ++
    [ "   Date: " ++ dt.pyStr ++ "\n\n" ])

/-- The formatted per-record strings of the health-statistics loop: only
the first `limit` records are formatted (line 352, indicators[:limit]). -/
def healthRecordStrings (inds : List JVal) (limit : Nat) : Py (List String) :=
  mapE (fun p => Except.map String.join (formatIndicatorSegs p.1 p.2))
    (enumIdx 1 (inds.take limit))

/-- Lines 347-350: the part of the output emitted before the record loop;
n is len(indicators), the full upstream record count. -/
def healthHeader (indicator : String) (country : Option String) (n : Nat) : String :=
  "**Health Statistics: " ++ indicator ++ "**\n\n"
    ++ (if optTruthy country then "Country: " ++ country.getD "" ++ "\n" else "")
    ++ "Found " ++ natStr n ++ " data points\n\n"

/-- Lines 335-362: get_health_statistics_tool. -/
def get_health_statistics_tool (indicator : String) (country : Option String)
    (limit : Nat) (resp : Py JVal) : Py String :=
  pyTry (do
      let indicators ← get_health_indicators resp
      if indicators.pyTruthy = false then
        Except.ok ("No health indicators found for '" ++ indicator ++ "'"
          ++ (if optTruthy country then " in " ++ country.getD "" else "")
          ++ ". Try a different search term.")
      else do
        let n ← indicators.pyLen
        let inds ← indicators.asIter
        let recs ← healthRecordStrings inds limit
        Except.ok (healthHeader indicator country n ++ String.join recs))
    (fun e => "Error fetching health statistics: " ++ e)

/-- Lines 385-392: one literature record (the records are built with a
fixed key set that never contains 'doi', so the DOI line of line 390 is
never emitted). -/
def formatPubmedRecord (idx : Nat) (a : PubMedArticle) : String :=
  natStr idx ++ ". **" ++ a.title ++ "**\n"
    ++ "   PMID: " ++ a.pmid ++ "\n"
    ++ "   Journal: " ++ a.journal ++ "\n"
    ++ "   Publication Date: " ++ a.publication_date ++ "\n"
    ++ "\n"

/-- Lines 371-396: search_medical_literature_tool. -/
def search_medical_literature_tool (query : String) (maxResults : Nat)
    (resp1 : Py JVal) (resp2 : Py String) : Py String :=
  pyTry (do
      let articles ← (search_pubmed_articles maxResults resp1 resp2).1
      if articles.isEmpty then
        Except.ok ("No medical articles found for '" ++ query ++ "'. Try a different search term.")
      else
        Except.ok ("**Medical Literature Search: '" ++ query ++ "'**\n\n"
          ++ "Found " ++ natStr articles.length ++ " article(s)\n\n"
          ++ String.join ((enumIdx 1 articles).map (fun p => formatPubmedRecord p.1 p.2))))
    (fun e => "Error searching medical literature: " ++ e)

/-- Lines 418-425: the segments appended for one RxNorm record. -/
def formatRxSegs (idx : Nat) (drug : JVal) : Py (List String) := do
  let nm ← drug.getItem "name"
  let rx ← drug.getItem "rxcui"
  let tty ← drug.getItem "tty"
  let lang ← drug.getItem "language"
  let scond ← fieldGuard drug "synonym"
  let ssegs ← if scond then do
      let s2 ← drug.getItem "synonym"
      let s3 ← s2.pySliceTake 3
      let joined ← pyJoin ", " s3
      let slen ← s2.pyLen
      Except.ok [ "   Synonyms: " ++ joined ++ (if 3 < slen then "..." else "") ++ "\n" ]
    else Except.ok ([] : List String)
  Except.ok ([ natStr idx ++ ". **" ++ nm.pyStr ++ "**\n",
      "   RxCUI: " ++ rx.pyStr ++ "\n",
      "   Term Type: " ++ tty.pyStr ++ "\n",
      "   Language: " ++ lang.pyStr ++ "\n" ] ++ ssegs ++ [ "\n" ])

/-- Lines 405-429: search_drug_nomenclature_tool. -/
def search_drug_nomenclature_tool (query : String) (resp : Py JVal) : Py String :=
  pyTry (do
      let drugs ← search_rxnorm_drugs resp
      if drugs.pyTruthy = false then
        Except.ok ("No drugs found in RxNorm database for '" ++ query
          ++ "'. Try a different search term.")
      else do
        let n ← drugs.pyLen
        let ds ← drugs.asIter
        let recs ← mapE (fun p => Except.map String.join (formatRxSegs p.1 p.2)) (enumIdx 1 ds)
        Except.ok ("**RxNorm Drug Search: '" ++ query ++ "'**\n\n"
          ++ "Found " ++ natStr n ++ " drug(s)\n\n" ++ String.join recs))
    (fun e => "Error searching RxNorm: " ++ e)

/-- Lines 451-465: one scholar record; optional fields are emitted only
when truthy, and the abstract is truncated to 300 characters. -/
def formatScholarRecord (idx : Nat) (a : GoogleScholarArticle) : String :=
  natStr idx ++ ". **" ++ a.title ++ "**\n"
    ++ (if a.authors.isEmpty then "" else "   Authors: " ++ a.authors ++ "\n")
    ++ (if a.journal.isEmpty then "" else "   Journal: " ++ a.journal ++ "\n")
    ++ (if a.year.isEmpty then "" else "   Year: " ++ a.year ++ "\n")
    ++ (if a.citations.isEmpty then "" else "   Citations: " ++ a.citations ++ "\n")
    ++ (match a.url with
        | some u => if u.isEmpty then "" else "   URL: " ++ u ++ "\n"
        | none => "")
    ++ (if a.abstract.isEmpty then ""
        else "   Abstract: " ++ String.mk (a.abstract.data.take 300)
          ++ (if 300 < a.abstract.length then "..." else "") ++ "\n")
    ++ "\n"

/-- Lines 438-469: search_google_scholar_tool. -/
def search_google_scholar_tool (query : String) (resp : Py (List ScholarEl)) : Py String :=
  pyTry (do
      let articles ← search_google_scholar resp
      if articles.isEmpty then
        Except.ok ("No academic articles found for '" ++ query
          ++ "'. This could be due to:\n- No results matching your query\n- Google Scholar rate limiting\n- Network connectivity issues\n\nTry refining your search terms or try again later.")
      else
        Except.ok ("**Google Scholar Search: '" ++ query ++ "'**\n\n"
          ++ "Found " ++ natStr articles.length ++ " article(s)\n\n"
          ++ String.join ((enumIdx 1 articles).map (fun p => formatScholarRecord p.1 p.2))))
    (fun e => "Error searching Google Scholar: " ++ e
      ++ ". This might be due to rate limiting or network issues. Please try again later.")

/-
  Definitions written from the SPEC'S WORDS (for refinement comparisons
  against the code-derived definitions above).  Each is clearly named
  *SpecClaim and is used only to settle the corresponding claim.
-/

/-- Spec reading of C3: from a text, the first maximal run of digits whose
length is exactly four. -/
def firstExactFourRun (s : List Char) : Option String :=
  ((digitRuns s).find? (fun r => r.length = 4)).map String.mk

/-- Spec reading of C3, whole derivation: scan author text, then title,
then abstract for the first run of exactly four digits; else empty. -/
def yearSpecClaim (authors title abstract : String) : String :=
  match firstExactFourRun authors.data with
  | some y => y
  | none =>
    match firstExactFourRun title.data with
    | some y => y
    | none =>
      match firstExactFourRun abstract.data with
      | some y => y
      | none => ""

/-- The text after the last occurrence of a separator, if any. -/
def afterLastSep (sep : List Char) : List Char → Option (List Char)
  | [] => none
  | c :: cs =>
    match afterLastSep sep cs with
    | some r => some r
    | none =>
      match dropLit sep (c :: cs) with
      | some rest => some rest
      | none => none

/-- Spec reading of C4, first pattern: the text after a trailing " - "
(space, hyphen, space), i.e. after the last occurrence of " - ". -/
def afterTrailingSep (sep : String) (s : String) : Option String :=
  (afterLastSep sep.data s.data).map String.mk

/-- Is there the standalone word "in " starting at position i?  (Start of
string or preceded by a space.) -/
def wordInAt (s : List Char) (i : Nat) : Bool :=
  (i = 0 || (s.take i).getLast? = some ' ')
    && (s.drop i).take 3 = [ 'i', 'n', ' ' ]
    && ((s.drop i).drop 3).takeWhile (fun c => c ≠ ',') ≠ []

/-- Spec reading of C4, third pattern: the text following the first
occurrence of the word "in " (up to a comma, as in the code's capture). -/
def afterWordIn (s : String) : Option String :=
  ((List.range s.data.length).find? (fun i => wordInAt s.data i)).map
    (fun i => String.mk (((s.data.drop i).drop 3).takeWhile (fun c => c ≠ ',')))

/-- Spec reading of C4, whole derivation: text after a trailing " - ",
else text after a trailing ", ", else text following the word "in ". -/
def journalSpecClaim (authors : String) : String :=
  match afterTrailingSep " - " authors with
  | some w => pyStrip w
  | none =>
    match afterTrailingSep ", " authors with
    | some w => pyStrip w
    | none =>
      match afterWordIn authors with
      | some w => pyStrip w
      | none => ""

/-- Spec reading of C7: ordered fallback - try the selectors of the group
one at a time, most specific first, and use the first selector that
matches at least one block. -/
def selectFallbackSpecClaim (doc : List ScholarEl) : List ScholarEl :=
  let l1 := doc.filter (fun e => matchesSel e (CssSel.classSel "gs_r"))
  if l1.isEmpty = false then l1
  else
    let l2 := doc.filter (fun e => matchesSel e (CssSel.classSel "gs_ri"))
    if l2.isEmpty = false then l2
    else doc.filter (fun e => matchesSel e (CssSel.attrSel "data-rp"))

/-
  Well-formedness of upstream records (used as hypotheses where a claim
  presupposes that formatting succeeds).
-/

/-- A WHO indicator record that the formatter accepts: a dict carrying the
six unconditionally accessed keys. -/
def WHOWf : JVal → Bool
  | .obj kvs =>
    (kvs.lookup "SpatialDim").isSome && (kvs.lookup "TimeDim").isSome
      && (kvs.lookup "Value").isSome && (kvs.lookup "Comments").isSome
      && (kvs.lookup "NumericValue").isSome && (kvs.lookup "Date").isSome
  | _ => false

/-- The characters of the marker "   Range: " that opens the confidence
range line. -/
def rangeMark : List Char :=
  [ ' ', ' ', ' ', 'R', 'a', 'n', 'g', 'e', ':', ' ' ]

/-- Does some appended segment carry the range line? -/
def hasRangeSeg (segs : List String) : Bool :=
  segs.any (fun s => rangeMark.isPrefixOf s.data)

/-
  Basic lemmas about the embedding.
-/

theorem pyTry_isOk (body : Py String) (handler : String → String) :
    (pyTry body handler).isOk = true := by
  cases body <;> rfl

theorem pyBind_ok {α β : Type} {m : Py α} {f : α → Py β} {b : β} :
    (m >>= f) = Except.ok b ↔ ∃ a, m = Except.ok a ∧ f a = Except.ok b := by
  cases m with
  | error e => simp [Bind.bind, Except.bind]
  | ok a => simp [Bind.bind, Except.bind]

theorem pyBind_okL {α β : Type} (a : α) (f : α → Py β) :
    (Except.ok a : Py α) >>= f = f a := rfl

theorem pyMap_ok {α β : Type} {m : Py α} {f : α → β} {b : β} :
    Except.map f m = Except.ok b ↔ ∃ a, m = Except.ok a ∧ f a = b := by
  cases m with
  | error e => simp [Except.map]
  | ok a => simp [Except.map, eq_comm]

theorem pyPure_ok {α : Type} {a b : α} :
    (pure a : Py α) = Except.ok b ↔ a = b := by
  simp [pure, Except.pure]

theorem enumIdx_length {α : Type} : ∀ (k : Nat) (l : List α), (enumIdx k l).length = l.length := by
  intro k l
  induction l generalizing k with
  | nil => rfl
  | cons x t ih => simp [enumIdx, ih]

theorem enumIdx_mem_snd {α : Type} {p : Nat × α} :
    ∀ {k : Nat} {l : List α}, p ∈ enumIdx k l → p.2 ∈ l := by
  intro k l
  induction l generalizing k with
  | nil => intro h; simp [enumIdx] at h
  | cons x t ih =>
    intro h
    simp only [enumIdx, List.mem_cons] at h
    rcases h with h | h
    · subst h; simp
    · exact List.mem_cons_of_mem _ (ih h)

theorem mapE_length {α β : Type} {f : α → Py β} :
    ∀ {l : List α} {ys : List β}, mapE f l = Except.ok ys → ys.length = l.length := by
  intro l
  induction l with
  | nil => intro ys h; simp [mapE] at h; simp [← h]
  | cons x t ih =>
    intro ys h
    simp only [mapE, pyBind_ok] at h
    obtain ⟨y, _, ys', hys', h⟩ := h
    rw [show Except.ok (y :: ys') = (Except.ok (y :: ys') : Py (List β)) from rfl] at h
    simp only [Except.ok.injEq] at h
    subst h
    simp [ih hys']

theorem mapE_ok {α β : Type} {f : α → Py β} :
    ∀ {l : List α}, (∀ x ∈ l, ∃ y, f x = Except.ok y) →
      ∃ ys, mapE f l = Except.ok ys := by
  intro l
  induction l with
  | nil => intro _; exact ⟨[], rfl⟩
  | cons x t ih =>
    intro h
    obtain ⟨y, hy⟩ := h x (by simp)
    obtain ⟨ys, hys⟩ := ih (fun z hz => h z (List.mem_cons_of_mem _ hz))
    refine ⟨y :: ys, ?_⟩
    simp only [mapE, hy, hys, pyBind_okL]

theorem natDigitsAux_head :
    ∀ (fuel n : Nat), 0 < fuel →
      ∃ c cs, natDigitsAux fuel n = c :: cs ∧ c.isDigit = true := by
  intro fuel
  induction fuel with
  | zero => intro n h; exact absurd h (by decide)
  | succ k ih =>
    intro n _
    by_cases hn : n < 10
    · refine ⟨Nat.digitChar n, [], ?_, ?_⟩
      · simp [natDigitsAux, hn]
      · interval_cases n <;> decide
    · cases k with
      | zero =>
        refine ⟨Nat.digitChar (n % 10), [], ?_, ?_⟩
        · simp [natDigitsAux, hn]
        · have h10 : n % 10 < 10 := Nat.mod_lt _ (by decide)
          interval_cases h : (n % 10) <;> decide
      | succ m =>
        obtain ⟨c, cs, hcs, hdig⟩ := ih (n / 10) (by omega)
        refine ⟨c, cs ++ [ Nat.digitChar (n % 10) ], ?_, hdig⟩
        have h1 : natDigitsAux (m + 1 + 1) n
            = natDigitsAux (m + 1) (n / 10) ++ [ Nat.digitChar (n % 10) ] := by
          rw [natDigitsAux, if_neg hn]
        rw [h1, hcs]
        rfl

/-- The first character of a rendered index is a digit, hence not a space. -/
theorem natStr_head :
    ∀ n : Nat, ∃ c cs, (natStr n).data = c :: cs ∧ c.isDigit = true := by
  intro n
  obtain ⟨c, cs, hcs, hdig⟩ := natDigitsAux_head (n + 1) n (by omega)
  exact ⟨c, cs, by simp [natStr, hcs], hdig⟩

theorem rangeMark_not_pref_of_digit {c : Char} (hc : c.isDigit = true) (l : List Char) :
    rangeMark.isPrefixOf (c :: l) = false := by
  have h1 : (' ' == c) = false := by
    cases hec : (' ' == c)
    · rfl
    · exfalso
      have h2 := eq_of_beq hec
      rw [← h2] at hc
      exact absurd hc (by decide)
  simp [rangeMark, List.isPrefixOf, h1]

/-- C1.  For every tool (drug search, drug details, health statistics,
medical literature, drug nomenclature, academic search) and every input,
including runs where the upstream call fails (Except.error) or returns
malformed data (an arbitrary JVal body), the tool invocation returns a
string: the tool-level computation is always Except.ok, i.e. no exception
propagates past the tool boundary's try/except. -/
theorem tools_never_raise :
    ∀ (dq ndc hind lq nq sq : String) (country : Option String)
      (dlimit hlimit maxr : Nat) (rd rdet rh rl1 rn : Py JVal)
      (rl2 : Py String) (rs : Py (List ScholarEl)),
      (search_drugs_tool dq dlimit rd).isOk = true
      ∧ (get_drug_details_tool ndc rdet).isOk = true
      ∧ (get_health_statistics_tool hind country hlimit rh).isOk = true
      ∧ (search_medical_literature_tool lq maxr rl1 rl2).isOk = true
      ∧ (search_drug_nomenclature_tool nq rn).isOk = true
      ∧ (search_google_scholar_tool sq rs).isOk = true := by
  intro dq ndc hind lq nq sq country dlimit hlimit maxr rd rdet rh rl1 rn rl2 rs
  exact ⟨pyTry_isOk _ _, pyTry_isOk _ _, pyTry_isOk _ _, pyTry_isOk _ _,
    pyTry_isOk _ _, pyTry_isOk _ _⟩

/-
  C7: candidate-block selection.
-/

def c7BlockA : ScholarEl :=
  { classes := [ "gs_r" ], attrs := [],
    titleEl := some { text := "First scholarly result", href := none },
    authorsText := none, abstractText := none, citationsText := none }

def c7BlockB : ScholarEl :=
  { classes := [], attrs := [ "data-rp" ],
    titleEl := some { text := "Second scholarly result", href := none },
    authorsText := none, abstractText := none, citationsText := none }

/-- C7 counterexample.  The claim says a broader selector is consulted only
if the more specific one matched no blocks.  On a page holding a .gs_r
block and a [data-rp] block, the code's single selector group returns both
blocks, while the claimed ordered fallback would return only the .gs_r
one: the claim is false on this input. -/
theorem block_select_union_cex :
    selectBlocks [ c7BlockA, c7BlockB ] = [ c7BlockA, c7BlockB ]
    ∧ selectFallbackSpecClaim [ c7BlockA, c7BlockB ] = [ c7BlockA ]
    ∧ selectBlocks [ c7BlockA, c7BlockB ] ≠ selectFallbackSpecClaim [ c7BlockA, c7BlockB ] := by
  refine ⟨rfl, rfl, fun h => ?_⟩
  have hne : (selectBlocks [ c7BlockA, c7BlockB ]).length
      ≠ (selectFallbackSpecClaim [ c7BlockA, c7BlockB ]).length := by decide
  exact hne (congrArg List.length h)

/-- C7 amended.  The scraper issues a single selector-group query
".gs_r, .gs_ri, [data-rp]": the candidate list is every block matching any
of the three selectors, in document order (a sublist of the page), with no
fallback - a block matching only the broader selector is selected even
when blocks match a more specific one. -/
theorem block_select_amended (doc : List ScholarEl) :
    (∀ e, e ∈ selectBlocks doc ↔ e ∈ doc ∧
        (matchesSel e (CssSel.classSel "gs_r") = true
          ∨ matchesSel e (CssSel.classSel "gs_ri") = true
          ∨ matchesSel e (CssSel.attrSel "data-rp") = true))
    ∧ (selectBlocks doc).Sublist doc := by
  constructor
  · intro e
    simp [selectBlocks, List.mem_filter, blockSelGroup]
  · exact List.filter_sublist _

/-- C5.  Whenever the decoded phase-1 body yields a falsy (in particular
empty) identifier list, the extractor returns the empty list, the
phase-2 request is not issued (the flag is false for every conceivable
phase-2 outcome resp2), and the tool returns the no-articles message. -/
theorem pubmed_empty_idlist_short_circuit
    (query : String) (maxResults : Nat) (j idl : JVal) (resp2 : Py String)
    (h1 : pubmedIdlist j = Except.ok idl) (h2 : idl.pyTruthy = false) :
    (search_pubmed_articles maxResults (Except.ok j) resp2).1 = Except.ok []
    ∧ (search_pubmed_articles maxResults (Except.ok j) resp2).2 = false
    ∧ search_medical_literature_tool query maxResults (Except.ok j) resp2
        = Except.ok ("No medical articles found for '" ++ query
            ++ "'. Try a different search term.") := by
  have hrun : search_pubmed_articles maxResults (Except.ok j) resp2
      = (Except.ok [], false) := by
    simp [search_pubmed_articles, h1, h2]
  refine ⟨by rw [hrun], by rw [hrun], ?_⟩
  simp only [search_medical_literature_tool, hrun, pyBind_okL, pyTry]
  rfl

/-- C5 witness: a phase-1 body with no idlist at all (defaults give []),
phase-2 network down; the tool still answers with the no-articles text. -/
theorem pubmed_empty_idlist_short_circuit_witness :
    (search_pubmed_articles 10 (Except.ok (JVal.obj [])) (Except.error "network unreachable")).1
        = Except.ok []
    ∧ (search_pubmed_articles 10 (Except.ok (JVal.obj [])) (Except.error "network unreachable")).2
        = false
    ∧ search_medical_literature_tool "influenza" 10 (Except.ok (JVal.obj []))
          (Except.error "network unreachable")
        = Except.ok ("No medical articles found for 'influenza'. Try a different search term.") :=
  pubmed_empty_idlist_short_circuit "influenza" 10 (JVal.obj []) (JVal.arr [])
    (Except.error "network unreachable") rfl rfl

/-- An Except computation that isOk has an ok value. -/
theorem isOk_exists {α : Type} {m : Py α} (h : m.isOk = true) : ∃ a, m = Except.ok a := by
  cases m with
  | error e => simp [Except.isOk, Except.toBool] at h
  | ok a => exact ⟨a, rfl⟩

/-- A well-formed WHO record always formats. -/
theorem whoWf_formats (idx : Nat) (ind : JVal) (h : WHOWf ind = true) :
    (formatIndicatorSegs idx ind).isOk = true := by
  cases ind with
  | obj kvs =>
    simp only [WHOWf, Bool.and_eq_true, Option.isSome_iff_exists] at h
    obtain ⟨⟨⟨⟨⟨⟨sd, hsd⟩, td, htd⟩, v, hv⟩, cm, hcm⟩, nv, hnv⟩, dt, hdt⟩ := h
    cases hl : kvs.lookup "Low" with
    | none =>
      simp [formatIndicatorSegs, JVal.getItem, JVal.dictGet, hsd, htd, hv,
        hcm, hnv, hdt, hl, JVal.pyTruthy, pyBind_okL, Except.isOk, Except.toBool]
    | some lv =>
      cases hh : kvs.lookup "High" with
      | none =>
        simp [formatIndicatorSegs, JVal.getItem, JVal.dictGet, hsd, htd, hv,
          hcm, hnv, hdt, hl, hh, JVal.pyTruthy, pyBind_okL, Except.isOk, Except.toBool]
      | some hg =>
        by_cases hb : (lv.pyTruthy = true ∧ hg.pyTruthy = true)
        · simp [formatIndicatorSegs, JVal.getItem, JVal.dictGet, hsd, htd, hv,
            hcm, hnv, hdt, hl, hh, hb.1, hb.2, pyBind_okL, Except.isOk, Except.toBool]
        · simp [formatIndicatorSegs, JVal.getItem, JVal.dictGet, hsd, htd, hv,
            hcm, hnv, hdt, hl, hh, hb, pyBind_okL, Except.isOk, Except.toBool]
  | null => simp [WHOWf] at h
  | bool b => simp [WHOWf] at h
  | num n => simp [WHOWf] at h
  | str s => simp [WHOWf] at h
  | arr xs => simp [WHOWf] at h

/-- Concrete drug-label record for counterexamples/witnesses. -/
def mkDrug (b g : String) : JVal :=
  JVal.obj [ ("openfda", JVal.obj [ ("brand_name", JVal.arr [ JVal.str b ]),
      ("generic_name", JVal.arr [ JVal.str g ]) ]),
    ("effective_time", JVal.str "20240101") ]

def c2Drugs : List JVal :=
  [ mkDrug "Advil" "ibuprofen", mkDrug "Motrin" "ibuprofen",
    mkDrug "Advil PM" "ibuprofen", mkDrug "Midol Complete" "ibuprofen" ]

def c2Resp : JVal := JVal.obj [ ("results", JVal.arr c2Drugs) ]

/-- C2 counterexample.  An upstream drug-search response holding 4 records
with limit = 3: the extractor hands all 4 records through (the limit is
only a request parameter, line 107), and the tool's loop formats all 4 of
them - not exactly limit = 3 as the claim states. -/
theorem drug_search_ignores_limit_cex :
    search_drugs "Advil" 3 (Except.ok c2Resp) = Except.ok (JVal.arr c2Drugs)
    ∧ c2Drugs.length = 4
    ∧ Except.map List.length (drugRecordStrings c2Drugs) = Except.ok 4
    ∧ (4 : Nat) ≠ 3 :=
  ⟨rfl, rfl, rfl, by decide⟩

/-- C2 amended.  Only the health-statistics tool enforces the result-count
bound locally: it formats exactly the first min(limit, upstream-count)
records, in source order, and a response with fewer records than the limit
yields the shorter sequence, not an error.  The drug-search tool passes its
limit upstream as a request parameter only and formats every record the
response holds, however many that is. -/
theorem result_bound_enforcement_amended :
    (∀ (inds : List JVal) (limit : Nat) (recs : List String),
        healthRecordStrings inds limit = Except.ok recs
          → recs.length = min limit inds.length)
    ∧ (∀ (inds : List JVal) (limit : Nat), (∀ i ∈ inds, WHOWf i = true)
          → ∃ recs, healthRecordStrings inds limit = Except.ok recs)
    ∧ (∀ (query : String) (limit : Nat) (inds : List JVal),
        search_drugs query limit (Except.ok (JVal.obj [ ("results", JVal.arr inds) ]))
          = Except.ok (JVal.arr inds))
    ∧ (∀ (inds : List JVal) (recs : List String),
        drugRecordStrings inds = Except.ok recs → recs.length = inds.length) := by
  refine ⟨?_, ?_, ?_, ?_⟩
  · intro inds limit recs h
    have h1 := mapE_length h
    rw [h1, enumIdx_length, List.length_take]
  · intro inds limit hwf
    refine mapE_ok ?_
    intro p hp
    have h2 : p.2 ∈ inds := List.take_subset limit inds (enumIdx_mem_snd hp)
    obtain ⟨segs, hsegs⟩ := isOk_exists (whoWf_formats p.1 p.2 (hwf p.2 h2))
    exact ⟨String.join segs, by rw [hsegs]; rfl⟩
  · intro query limit inds
    rfl
  · intro inds recs h
    rw [mapE_length h, enumIdx_length]

/-- Concrete well-formed WHO indicator records. -/
def whoRecA : JVal :=
  JVal.obj [ ("SpatialDim", JVal.str "USA"), ("TimeDim", JVal.str "2019"),
    ("Value", JVal.str "78.8"), ("Comments", JVal.null),
    ("NumericValue", JVal.num 78), ("Date", JVal.str "2020-01-15") ]

def whoRecB : JVal :=
  JVal.obj [ ("SpatialDim", JVal.str "GBR"), ("TimeDim", JVal.str "2019"),
    ("Value", JVal.str "81.2"), ("Comments", JVal.null),
    ("NumericValue", JVal.num 81), ("Date", JVal.str "2020-01-15") ]

/-- C2 amended, witness: two well-formed upstream records with limit 1
format without error. -/
theorem result_bound_enforcement_amended_witness :
    ∃ recs, healthRecordStrings [ whoRecA, whoRecB ] 1 = Except.ok recs :=
  result_bound_enforcement_amended.2.1 [ whoRecA, whoRecB ] 1 (by
    intro i hi
    rcases List.mem_cons.mp hi with h | h
    · subst h; rfl
    · rcases List.mem_cons.mp h with h2 | h2
      · subst h2; rfl
      · cases h2)

/-- A well-formed record list formats without error (shared helper). -/
theorem health_records_ok (inds : List JVal) (limit : Nat)
    (hwf : ∀ i ∈ inds, WHOWf i = true) :
    ∃ recs, healthRecordStrings inds limit = Except.ok recs := by
  refine mapE_ok ?_
  intro p hp
  have h2 : p.2 ∈ inds := List.take_subset limit inds (enumIdx_mem_snd hp)
  obtain ⟨segs, hsegs⟩ := isOk_exists (whoWf_formats p.1 p.2 (hwf p.2 h2))
  exact ⟨String.join segs, by rw [hsegs]; rfl⟩

/-- C9.  When the upstream response holds more records than the limit, the
rendered output is the header - whose "Found N data points" line reports
the full upstream record count N = inds.length - followed by the bodies of
only the first limit records. -/
theorem health_header_full_count (indicator : String) (country : Option String)
    (limit : Nat) (inds : List JVal)
    (hwf : ∀ i ∈ inds, WHOWf i = true) (hlt : limit < inds.length) :
    ∃ recs, healthRecordStrings inds limit = Except.ok recs ∧ recs.length = limit
      ∧ get_health_statistics_tool indicator country limit
          (Except.ok (JVal.obj [ ("value", JVal.arr inds) ]))
        = Except.ok (healthHeader indicator country inds.length ++ String.join recs) := by
  obtain ⟨recs, hrecs⟩ := health_records_ok inds limit hwf
  have hlen : recs.length = limit := by
    have h1 := mapE_length hrecs
    rw [h1, enumIdx_length, List.length_take]
    omega
  refine ⟨recs, hrecs, hlen, ?_⟩
  obtain ⟨a, t, rfl⟩ : ∃ a t, inds = a :: t := by
    cases inds with
    | nil => simp at hlt
    | cons a t => exact ⟨a, t, rfl⟩
  simp [get_health_statistics_tool, get_health_indicators, JVal.dictGet,
    JVal.pyTruthy, JVal.pyLen, JVal.asIter, pyBind_okL, hrecs, pyTry]

/-- C9 witness: two upstream records, limit 1 - the header reports 2. -/
theorem health_header_full_count_witness :
    ∃ recs, healthRecordStrings [ whoRecA, whoRecB ] 1 = Except.ok recs
      ∧ recs.length = 1
      ∧ get_health_statistics_tool "Life expectancy" none 1
          (Except.ok (JVal.obj [ ("value", JVal.arr [ whoRecA, whoRecB ]) ]))
        = Except.ok (healthHeader "Life expectancy" none 2 ++ String.join recs) :=
  health_header_full_count "Life expectancy" none 1 [ whoRecA, whoRecB ]
    (by
      intro i hi
      rcases List.mem_cons.mp hi with h | h
      · subst h; rfl
      · rcases List.mem_cons.mp h with h2 | h2
        · subst h2; rfl
        · cases h2)
    (by decide)

/-- C10.  The "Range: Low - High" line is emitted for a formatted record
exactly when both the Low and the High field are present and truthy; in
particular a record whose Low or High is 0 (falsy) has no range line even
though both fields are present. -/
theorem health_range_truthiness (idx : Nat) (kvs : List (String × JVal)) (segs : List String)
    (h : formatIndicatorSegs idx (JVal.obj kvs) = Except.ok segs) :
    hasRangeSeg segs
      = (((kvs.lookup "Low").getD JVal.null).pyTruthy
          && ((kvs.lookup "High").getD JVal.null).pyTruthy) := by
  simp only [formatIndicatorSegs, pyBind_ok] at h
  obtain ⟨sd, hsd, td, htd, v, hv, cm, hcm, nv, hnv, low, hlow, high, hhigh, hrest⟩ := h
  simp only [JVal.dictGet, Except.ok.injEq] at hlow hhigh
  subst hlow
  subst hhigh
  by_cases hb : ((((kvs.lookup "Low").getD JVal.null).pyTruthy
      && ((kvs.lookup "High").getD JVal.null).pyTruthy) = true)
  · rw [if_pos hb] at hrest
    simp only [pyBind_ok, pyBind_okL] at hrest
    obtain ⟨lv, hlv, hg, hhg, dt, hdt, hfin⟩ := hrest
    simp only [Except.ok.injEq] at hfin
    subst hfin
    rw [hb]
    simp [hasRangeSeg, rangeMark, List.isPrefixOf, String.data_append, List.append_assoc]
  · rw [if_neg hb] at hrest
    simp only [pyBind_ok, pyBind_okL] at hrest
    obtain ⟨dt, hdt, hfin⟩ := hrest
    simp only [Except.ok.injEq] at hfin
    subst hfin
    rw [Bool.eq_false_iff.mpr hb]
    obtain ⟨c, cs, hcc, hdig⟩ := natStr_head idx
    simp only [hasRangeSeg, List.append_nil, List.nil_append, List.cons_append,
      List.any_cons, List.any_nil, Bool.or_false]
    rw [show (natStr idx ++ ". **" ++ sd.pyStr ++ "** (" ++ td.pyStr ++ ")\n").data
        = c :: (cs ++ (". **" ++ sd.pyStr ++ "** (" ++ td.pyStr ++ ")\n").data) from by
      simp [String.data_append, hcc]]
    rw [rangeMark_not_pref_of_digit hdig]
    simp [rangeMark, List.isPrefixOf, String.data_append, List.append_assoc]

/-- A record whose Low equals 0: both range fields present, yet falsy. -/
def c10Kvs : List (String × JVal) :=
  [ ("SpatialDim", JVal.str "USA"), ("TimeDim", JVal.str "2019"),
    ("Value", JVal.str "0"), ("Comments", JVal.null),
    ("NumericValue", JVal.num 0), ("Low", JVal.num 0), ("High", JVal.num 5),
    ("Date", JVal.str "2020-01-15") ]

/-- What the formatter emits for that record: no range line. -/
def c10Segs : List String :=
  [ "1. **USA** (2019)\n", "   Value: 0 \n", "   Numeric Value: 0\n",
    "   Date: 2020-01-15\n\n" ]

/-- C10 witness: Low = 0 and High = 5 are both present but the range line
is omitted. -/
theorem health_range_truthiness_witness : hasRangeSeg c10Segs = false :=
  (health_range_truthiness 1 c10Kvs c10Segs rfl).trans rfl

/-- C8.  For a drug record whose openfda map lacks the optional
generic_name field, the lookup-with-default renders the placeholder
"Not specified" for that field without raising, and whenever the record
formats, the emitted generic-name segment is exactly
"   Generic Name: Not specified".  (The same .get(key, [default])[0]
composite serves manufacturer_name, route and dosage_form.) -/
theorem drug_missing_field_placeholder (idx : Nat) (drug : JVal)
    (ofda : List (String × JVal))
    (h1 : drug.getItem "openfda" = Except.ok (JVal.obj ofda))
    (h2 : ofda.lookup "generic_name" = none) :
    drugName drug "generic_name" "Not specified" = Except.ok (JVal.str "Not specified")
    ∧ ∀ segs, formatDrugSegs idx drug = Except.ok segs
        → "   Generic Name: Not specified\n" ∈ segs := by
  have hgn : drugName drug "generic_name" "Not specified"
      = Except.ok (JVal.str "Not specified") := by
    simp [drugName, h1, pyBind_okL, JVal.dictGet, h2, JVal.pyIndex]
  refine ⟨hgn, ?_⟩
  intro segs hsegs
  simp only [formatDrugSegs, pyBind_ok] at hsegs
  obtain ⟨brand, hbrand, gn, hgn2, mn, hmn, rt, hrt, df, hdf, pcond, hpcond, hrest⟩ := hsegs
  rw [hgn] at hgn2
  simp only [Except.ok.injEq] at hgn2
  subst hgn2
  cases pcond with
  | false =>
    rw [if_neg (by simp)] at hrest
    simp only [pyBind_ok, pyBind_okL] at hrest
    obtain ⟨et, het, hfin⟩ := hrest
    simp only [Except.ok.injEq] at hfin
    subst hfin
    simp only [List.nil_append, List.append_nil, List.cons_append]
    exact List.mem_cons_of_mem _ (List.mem_cons_self _ _)
  | true =>
    rw [if_pos rfl] at hrest
    simp only [pyBind_ok, pyBind_okL] at hrest
    obtain ⟨p2, hp2, p0, hp0, psl, hpsl, plen, hplen, et, het, hfin⟩ := hrest
    simp only [Except.ok.injEq] at hfin
    subst hfin
    simp only [List.nil_append, List.append_nil, List.cons_append]
    exact List.mem_cons_of_mem _ (List.mem_cons_self _ _)

/-- A record with only brand_name in its openfda map. -/
def c8Drug : JVal :=
  JVal.obj [ ("openfda", JVal.obj [ ("brand_name", JVal.arr [ JVal.str "Tylenol" ]) ]),
    ("effective_time", JVal.str "20230101") ]

/-- What the drug-search formatter emits for c8Drug. -/
def c8Segs : List String :=
  [ "1. **Tylenol**\n", "   Generic Name: Not specified\n",
    "   Manufacturer: Not specified\n", "   Route: Not specified\n",
    "   Dosage Form: Not specified\n", "   Last Updated: 20230101\n\n" ]

/-- C8 witness: a record with only brand_name present renders its generic
name as "Not specified" without a missing-field fault. -/
theorem drug_missing_field_placeholder_witness :
    drugName c8Drug "generic_name" "Not specified" = Except.ok (JVal.str "Not specified")
    ∧ "   Generic Name: Not specified\n" ∈ c8Segs :=
  ⟨(drug_missing_field_placeholder 1 c8Drug
      [ ("brand_name", JVal.arr [ JVal.str "Tylenol" ]) ] rfl rfl).1,
   (drug_missing_field_placeholder 1 c8Drug
      [ ("brand_name", JVal.arr [ JVal.str "Tylenol" ]) ] rfl rfl).2 c8Segs rfl⟩

/-- C6.  Every record surviving the scraper has a title longer than 5
characters, and a candidate block whose extracted title is empty or at
most 5 characters long is dropped regardless of its other fields. -/
theorem scholar_title_filter (doc : List ScholarEl) :
    (∀ art ∈ scholarArticles doc, 5 < art.title.length)
    ∧ (∀ el : ScholarEl, (blockTitleText el).length ≤ 5 → processBlock el = none) := by
  constructor
  · intro art hart
    simp only [scholarArticles, List.mem_filterMap] at hart
    obtain ⟨el, _, hel⟩ := hart
    simp only [processBlock] at hel
    by_cases hc : (blockTitleText el ≠ "" ∧ 5 < (blockTitleText el).length)
    · rw [if_pos hc] at hel
      simp only [Option.some.injEq] at hel
      subst hel
      exact hc.2
    · rw [if_neg hc] at hel
      exact absurd hel (by simp)
  · intro el hle
    simp only [processBlock]
    rw [if_neg ?_]
    intro hc
    omega

def c6Block : ScholarEl :=
  { classes := [ "gs_r" ], attrs := [],
    titleEl := some { text := "Attention is all you need", href := none },
    authorsText := none, abstractText := none, citationsText := none }

def c6Article : GoogleScholarArticle :=
  { title := "Attention is all you need", authors := "", abstract := "",
    journal := "", year := "", citations := "", url := none }

/-- C6 witness: a concrete surviving candidate has a title longer than 5
characters. -/
theorem scholar_title_filter_witness : 5 < c6Article.title.length := by
  have h : scholarArticles [ c6Block ] = [ c6Article ] := rfl
  exact (scholar_title_filter [ c6Block ]).1 c6Article (h ▸ List.mem_cons_self _ _)

/-- Four consecutive digits occur in s starting at position i. -/
def win4At (s : List Char) (i : Nat) : Prop :=
  ∃ a b c d rest, s.drop i = a :: b :: c :: d :: rest
    ∧ (a.isDigit && b.isDigit && c.isDigit && d.isDigit) = true

theorem win4At_zero {a b c d : Char} {rest : List Char} :
    win4At (a :: b :: c :: d :: rest) 0
      ↔ (a.isDigit && b.isDigit && c.isDigit && d.isDigit) = true := by
  constructor
  · rintro ⟨x1, x2, x3, x4, r, heq, hd⟩
    simp only [List.drop_zero, List.cons.injEq] at heq
    obtain ⟨rfl, rfl, rfl, rfl, rfl⟩ := heq
    exact hd
  · intro hd
    exact ⟨a, b, c, d, rest, rfl, hd⟩

theorem win4At_succ {c0 : Char} {s : List Char} {j : Nat} :
    win4At (c0 :: s) (j + 1) ↔ win4At s j := by
  simp only [win4At, List.drop_succ_cons]

theorem win4At_short {s : List Char} (h : s.length < 4) (i : Nat) : ¬ win4At s i := by
  rintro ⟨a, b, c, d, rest, heq, _⟩
  have h1 : (s.drop i).length ≤ s.length := by
    rw [List.length_drop]
    omega
  rw [heq] at h1
  simp at h1
  omega

/-- Soundness of the \d-window search: a successful search returns the
window at the first position carrying four consecutive digits. -/
theorem searchFourL_some : ∀ (s : List Char) (w : String), searchFourL s = some w →
    ∃ i, win4At s i ∧ (∀ j, j < i → ¬ win4At s j)
      ∧ w = String.mk ((s.drop i).take 4) := by
  intro s
  induction s with
  | nil => intro w h; exact absurd h (by simp [searchFourL])
  | cons a t ih =>
    intro w h
    cases t with
    | nil => exact absurd h (by simp [searchFourL])
    | cons b t2 =>
      cases t2 with
      | nil => exact absurd h (by simp [searchFourL])
      | cons c t3 =>
        cases t3 with
        | nil => exact absurd h (by simp [searchFourL])
        | cons d rest =>
          rw [searchFourL] at h
          by_cases hc : (a.isDigit && b.isDigit && c.isDigit && d.isDigit) = true
          · rw [if_pos hc] at h
            simp only [Option.some.injEq] at h
            refine ⟨0, win4At_zero.mpr hc, fun j hj => absurd hj (by omega), ?_⟩
            rw [← h]
            rfl
          · rw [if_neg hc] at h
            obtain ⟨i, hwin, hmin, hw⟩ := ih w h
            refine ⟨i + 1, win4At_succ.mpr hwin, ?_, ?_⟩
            · intro j hj
              cases j with
              | zero => intro hz; exact hc (win4At_zero.mp hz)
              | succ j2 =>
                rw [win4At_succ]
                exact hmin j2 (by omega)
            · rw [List.drop_succ_cons]
              exact hw

/-- Completeness: a failed search means no position carries four
consecutive digits. -/
theorem searchFourL_none : ∀ (s : List Char), searchFourL s = none →
    ∀ i, ¬ win4At s i := by
  intro s
  induction s with
  | nil => intro _ i; exact win4At_short (by simp) i
  | cons a t ih =>
    intro h i
    cases t with
    | nil => exact win4At_short (by simp) i
    | cons b t2 =>
      cases t2 with
      | nil => exact win4At_short (by simp) i
      | cons c t3 =>
        cases t3 with
        | nil => exact win4At_short (by simp) i
        | cons d rest =>
          rw [searchFourL] at h
          by_cases hc : (a.isDigit && b.isDigit && c.isDigit && d.isDigit) = true
          · rw [if_pos hc] at h
            exact absurd h (by simp)
          · rw [if_neg hc] at h
            cases i with
            | zero => intro hz; exact hc (win4At_zero.mp hz)
            | succ j =>
              rw [win4At_succ]
              exact ih h j

/-- C3 counterexample.  On author text "12345" (a five-digit run, hence no
run of exactly four digits) the code derives year "1234" - the first four
consecutive digits - while the claim as stated requires the empty
string. -/
theorem year_exact_four_run_cex :
    extractYear "12345" "" "" = "1234"
    ∧ yearSpecClaim "12345" "" "" = ""
    ∧ ("1234" : String) ≠ "" :=
  ⟨rfl, rfl, by decide⟩

/-- C3 amended.  The year is derived by scanning the author text, then the
title, then the abstract, in that priority order, with re.search(r"(\d{4})"):
the first position with four consecutive digits wins (the window may sit
inside a longer digit run); if no text has four consecutive digits the year
is the empty string.  "Smith J, 2020" / "Review" / "Published 2019" still
yield "2020". -/
theorem year_extraction_amended (a t b : String) :
    (∀ y, searchFourL a.data = some y → extractYear a t b = y)
    ∧ (searchFourL a.data = none → ∀ y, searchFourL t.data = some y
        → extractYear a t b = y)
    ∧ (searchFourL a.data = none → searchFourL t.data = none →
        ∀ y, searchFourL b.data = some y → extractYear a t b = y)
    ∧ (searchFourL a.data = none → searchFourL t.data = none →
        searchFourL b.data = none → extractYear a t b = "")
    ∧ (∀ (s : List Char) (y : String), searchFourL s = some y →
        ∃ i, win4At s i ∧ (∀ j, j < i → ¬ win4At s j)
          ∧ y = String.mk ((s.drop i).take 4))
    ∧ (∀ s : List Char, searchFourL s = none → ∀ i, ¬ win4At s i) := by
  refine ⟨?_, ?_, ?_, ?_, searchFourL_some, searchFourL_none⟩
  · intro y hy
    simp [extractYear, hy]
  · intro ha y hy
    simp [extractYear, ha, hy]
  · intro ha ht y hy
    simp [extractYear, ha, ht, hy]
  · intro ha ht hb
    simp [extractYear, ha, ht, hb]

/-- C3 witness: the claim's own example, via the amended theorem. -/
theorem year_extraction_amended_witness :
    extractYear "Smith J, 2020" "Review" "Published 2019" = "2020" :=
  (year_extraction_amended "Smith J, 2020" "Review" "Published 2019").1 "2020" rfl

/-- Characterization of the two end-anchored journal patterns
(r"- ([^-]+)$" and r", ([^,]+)$"): the search succeeds with group w iff
the text decomposes as pre ++ sep ++ " " ++ w with w nonempty and
sep-free; such a decomposition is unique, so no minimality clause is
needed. -/
theorem searchSepEnd_some_iff (sep : Char) : ∀ (s w : List Char),
    searchSepEnd sep s = some w
      ↔ ∃ pre, s = pre ++ sep :: ' ' :: w ∧ w ≠ [] ∧ w.contains sep = false := by
  intro s
  induction s with
  | nil =>
    intro w
    constructor
    · intro h
      exact absurd h (by simp [searchSepEnd])
    · rintro ⟨pre, heq, _, _⟩
      cases pre <;> simp at heq
  | cons c cs ih =>
    intro w
    by_cases hc : (c = sep ∧ cs.take 1 = [ ' ' ] ∧ cs.drop 1 ≠ []
        ∧ (cs.drop 1).contains sep = false)
    · rw [searchSepEnd, if_pos hc]
      obtain ⟨hcsep, htk, hne, hnc⟩ := hc
      obtain ⟨cs', rfl⟩ : ∃ cs', cs = ' ' :: cs' := by
        cases cs with
        | nil => simp at htk
        | cons x xs =>
          simp only [List.take_succ_cons, List.take_zero, List.cons.injEq] at htk
          rw [htk.1]
          exact ⟨xs, rfl⟩
      subst hcsep
      simp only [List.drop_succ_cons, List.drop_zero] at hne hnc ⊢
      constructor
      · intro h
        simp only [Option.some.injEq] at h
        subst h
        exact ⟨[], rfl, hne, hnc⟩
      · rintro ⟨pre, heq, hwne, hwnc⟩
        cases pre with
        | nil =>
          simp only [List.nil_append, List.cons.injEq, true_and] at heq
          rw [heq]
        | cons p ps =>
          exfalso
          simp only [List.cons_append, List.cons.injEq] at heq
          obtain ⟨hp, heq2⟩ := heq
          cases ps with
          | nil =>
            simp only [List.nil_append, List.cons.injEq] at heq2
            obtain ⟨hsp, heq3⟩ := heq2
            rw [heq3, ← hsp] at hnc
            simp [List.contains] at hnc
          | cons q qs =>
            simp only [List.cons_append, List.cons.injEq] at heq2
            obtain ⟨hsq, heq3⟩ := heq2
            have hmem : c ∈ cs' := by
              rw [heq3]
              exact List.mem_append_right _ (List.mem_cons_self _ _)
            have hco : cs'.contains c = true := List.elem_eq_true_of_mem hmem
            rw [hco] at hnc
            cases hnc
    · rw [searchSepEnd, if_neg hc]
      rw [ih w]
      constructor
      · rintro ⟨pre, heq, hwne, hwnc⟩
        exact ⟨c :: pre, by rw [heq]; rfl, hwne, hwnc⟩
      · rintro ⟨pre, heq, hwne, hwnc⟩
        cases pre with
        | nil =>
          exfalso
          simp only [List.nil_append, List.cons.injEq] at heq
          obtain ⟨h1, h2⟩ := heq
          subst h2
          exact hc ⟨h1, rfl, by simpa using hwne, by simpa using hwnc⟩
        | cons p ps =>
          simp only [List.cons_append, List.cons.injEq] at heq
          exact ⟨ps, heq.2, hwne, hwnc⟩

/-- The pattern "in " matches at position i of s (the substring "in " -
inside a word as well - followed by at least one non-comma character). -/
def inStartAt (s : List Char) (i : Nat) : Prop :=
  (s.drop i).take 3 = [ 'i', 'n', ' ' ]
    ∧ ((s.drop i).drop 3).takeWhile (fun x => x ≠ ',') ≠ []

theorem inStartAt_succ {c : Char} {s : List Char} {j : Nat} :
    inStartAt (c :: s) (j + 1) ↔ inStartAt s j := by
  simp only [inStartAt, List.drop_succ_cons]

theorem inStartAt_zero {c : Char} {cs : List Char} :
    inStartAt (c :: cs) 0
      ↔ (c = 'i' ∧ cs.take 2 = [ 'n', ' ' ]
          ∧ (cs.drop 2).takeWhile (fun x => x ≠ ',') ≠ []) := by
  unfold inStartAt
  constructor
  · rintro ⟨h1, h2⟩
    simp only [List.drop_zero] at h1 h2
    have h1a : c :: cs.take 2 = [ 'i', 'n', ' ' ] := h1
    have h2a : (cs.drop 2).takeWhile (fun x => x ≠ ',') ≠ [] := h2
    simp only [List.cons.injEq] at h1a
    exact ⟨h1a.1, h1a.2, h2a⟩
  · rintro ⟨h1, h2, h3⟩
    constructor
    · show c :: cs.take 2 = [ 'i', 'n', ' ' ]
      rw [h1, h2]
    · show (cs.drop 2).takeWhile (fun x => x ≠ ',') ≠ []
      exact h3

/-- Characterization of r"in ([^,]+)": the leftmost occurrence of the
substring "in " followed by a nonempty comma-free run wins, and the group
is that maximal comma-free run. -/
theorem searchInL_some_iff : ∀ (s w : List Char),
    searchInL s = some w
      ↔ ∃ i, inStartAt s i ∧ (∀ j, j < i → ¬ inStartAt s j)
          ∧ w = ((s.drop i).drop 3).takeWhile (fun x => x ≠ ',') := by
  intro s
  induction s with
  | nil =>
    intro w
    constructor
    · intro h
      exact absurd h (by simp [searchInL])
    · rintro ⟨i, hin, _, _⟩
      obtain ⟨htk, _⟩ := hin
      simp at htk
  | cons c cs ih =>
    intro w
    by_cases hc : (c = 'i' ∧ cs.take 2 = [ 'n', ' ' ]
        ∧ (cs.drop 2).takeWhile (fun x => x ≠ ',') ≠ [])
    · rw [searchInL, if_pos hc]
      constructor
      · intro h
        simp only [Option.some.injEq] at h
        refine ⟨0, inStartAt_zero.mpr hc, fun j hj => absurd hj (by omega), ?_⟩
        rw [← h]
        rfl
      · rintro ⟨i, hin, hmin, hw⟩
        cases i with
        | zero => rw [hw]; rfl
        | succ j => exact absurd (inStartAt_zero.mpr hc) (hmin 0 (by omega))
    · rw [searchInL, if_neg hc]
      rw [ih w]
      constructor
      · rintro ⟨i, hin, hmin, hw⟩
        refine ⟨i + 1, inStartAt_succ.mpr hin, ?_, ?_⟩
        · intro j hj
          cases j with
          | zero => intro hz; exact hc (inStartAt_zero.mp hz)
          | succ j2 =>
            rw [inStartAt_succ]
            exact hmin j2 (by omega)
        · rw [List.drop_succ_cons]
          exact hw
      · rintro ⟨i, hin, hmin, hw⟩
        cases i with
        | zero => exact absurd (inStartAt_zero.mp hin) hc
        | succ j =>
          refine ⟨j, inStartAt_succ.mp hin, ?_, ?_⟩
          · intro j2 hj2
            have h2 := hmin (j2 + 1) (by omega)
            rw [inStartAt_succ] at h2
            exact h2
          · rw [List.drop_succ_cons] at hw
            exact hw

/-- C4 counterexample.  Author text "Martin J" contains no " - ", no ", "
and no word "in", so the claim as stated derives the empty journal; but
the code's third pattern r"in ([^,]+)" matches the "in " inside "Martin"
and derives journal "J". -/
theorem journal_word_in_cex :
    extractJournal "Martin J" = "J"
    ∧ journalSpecClaim "Martin J" = ""
    ∧ ("J" : String) ≠ "" :=
  ⟨rfl, rfl, by decide⟩

/-- C4 amended.  The journal is the first match, stripped, among: the text
after the final "- " (hyphen-space, no surrounding-space requirement) when
that text is nonempty and hyphen-free and runs to the end; else the text
after the final ", " when nonempty, comma-free and running to the end;
else the maximal nonempty comma-free text following the first occurrence
of the substring "in " (which may sit inside a word); else empty.
"J Smith - Nature" still yields "Nature" and "J Smith, Cell Press" still
yields "Cell Press". -/
theorem journal_extraction_amended (a : String) :
    (∀ w, searchSepEnd '-' a.data = some w → extractJournal a = pyStrip (String.mk w))
    ∧ (searchSepEnd '-' a.data = none → ∀ w, searchSepEnd ',' a.data = some w
        → extractJournal a = pyStrip (String.mk w))
    ∧ (searchSepEnd '-' a.data = none → searchSepEnd ',' a.data = none →
        ∀ w, searchInL a.data = some w → extractJournal a = pyStrip (String.mk w))
    ∧ (searchSepEnd '-' a.data = none → searchSepEnd ',' a.data = none →
        searchInL a.data = none → extractJournal a = "")
    ∧ (∀ (sep : Char) (s w : List Char), searchSepEnd sep s = some w
        ↔ ∃ pre, s = pre ++ sep :: ' ' :: w ∧ w ≠ [] ∧ w.contains sep = false)
    ∧ (∀ (s w : List Char), searchInL s = some w
        ↔ ∃ i, inStartAt s i ∧ (∀ j, j < i → ¬ inStartAt s j)
            ∧ w = ((s.drop i).drop 3).takeWhile (fun x => x ≠ ',')) := by
  refine ⟨?_, ?_, ?_, ?_, searchSepEnd_some_iff, searchInL_some_iff⟩
  · intro w hw
    simp [extractJournal, hw]
  · intro hd w hw
    simp [extractJournal, hd, hw]
  · intro hd hcm w hw
    simp [extractJournal, hd, hcm, hw]
  · intro hd hcm hin
    simp [extractJournal, hd, hcm, hin]

/-- C4 witness: the claim's two examples, via the amended theorem. -/
theorem journal_extraction_amended_witness :
    extractJournal "J Smith - Nature" = "Nature"
    ∧ extractJournal "J Smith, Cell Press" = "Cell Press" :=
  ⟨((journal_extraction_amended "J Smith - Nature").1 "Nature".data rfl).trans rfl,
   ((journal_extraction_amended "J Smith, Cell Press").2.1 rfl "Cell Press".data rfl).trans rfl⟩

/-- C7 amended, witness: the [data-rp] block is selected even though a
.gs_r block matched. -/
theorem block_select_amended_witness :
    c7BlockB ∈ selectBlocks [ c7BlockA, c7BlockB ] :=
  ((block_select_amended [ c7BlockA, c7BlockB ]).1 c7BlockB).mpr
    ⟨by simp, Or.inr (Or.inr rfl)⟩
